import Mathlib

/-!
Verification development for the session-chat backend
(`main.py`, `app/redis_cache.py`, `app/crud.py`, `app/characters.py`).

Shallow embedding conventions:
* A chat message (`{"role": ..., "content": ...}` dict) is `Msg`.
* The Redis keyspace is split into its two purposes: the per-session
  history value (`chat:hist:<sid>`, a JSON-encoded list, absent key read
  as `[]` by `get_history`) is a total function `String → List Msg`
  where the empty list stands for an absent key, exactly matching
  `get_history`'s observable behaviour; the per-session lock key
  (`chat:lock:<sid>`) appears twice: as a `Bool` per session inside the
  request-handler model (held / not held), and as a timed model
  `String → Option Nat` (expiry instant) for the TTL claims.
* The `chat_history` table is a list of `Row` kept in insertion order;
  `created_at` is monotone in insertion order (rows are only ever
  appended inside `add_turn`), so `ORDER BY created_at ASC` is the
  identity on this representation and `LIMIT n` is `List.take n`.
* Python truthiness on optional strings / ints is made explicit
  (`strTruthy`, `intTruthy`).
* The upstream model call and the two persistence writes can each fail;
  those outcomes are inputs of the handler model (`LLMResult`,
  `StreamOutcome`, `PFail`) and the handler threads the world state
  through exactly the statements the Python executes on that path,
  `try/finally` included.
-/

/-- One chat message: `{"role": r, "content": c}`. -/
structure Msg where
  role : String
  content : String
deriving DecidableEq, Repr

/-- One `chat_history` row (the columns the handlers write and read). -/
structure Row where
  session_id : String
  character_id : Option Int
  character_name : String
  role : String
  message : String
deriving DecidableEq, Repr

/-- One `chat_sessions` row (the columns the handlers read). -/
structure SessionRow where
  id : String
  character_id : Option Int
deriving DecidableEq, Repr

/-- One `character_info` row. -/
structure CharacterInfo where
  id : Int
  name : String
  background : Option String
  personality : Option String
  skills : Option String
  current_playstyle : Option String
deriving DecidableEq, Repr

/-- Python truthiness of an optional string (`None` and `""` are falsy). -/
def strTruthy : Option String → Bool
  | none => false
  | some s => s ≠ ""

/-- Python truthiness of an optional int (`None` and `0` are falsy). -/
def intTruthy : Option Int → Bool
  | none => false
  | some i => i ≠ 0

/-- The mutable world the two chat handlers act on: the Redis history
keyspace, the Redis lock keyspace (untimed view), and the two relational
tables. -/
structure World where
  redisHist : String → List Msg
  redisLock : String → Bool
  db : List Row
  sessions : List SessionRow
  characters : List CharacterInfo

/-- `history[-k:]` in Python: the last `k` elements, except that `k = 0`
yields the whole list (`l[-0:] = l[0:] = l`). -/
def pySliceLast (k : Nat) (l : List α) : List α :=
  if k = 0 then l else l.drop (l.length - k)

/-- The last `k` elements of a list (the whole list when `k ≥ length`). -/
def takeLast (k : Nat) (l : List α) : List α :=
  l.drop (l.length - k)

/-- `get_history` (redis_cache.py:43-50): read the history key; an absent
key (and an undecodable value) reads as `[]`. -/
def get_history (w : World) (session_id : String) : List Msg :=
  w.redisHist session_id

/-- The pure core of `set_history` (redis_cache.py:52-55): truncate to
`history[-MAX_TURNS*2:]` when strictly longer than `MAX_TURNS * 2`. -/
def set_history_trunc (maxTurns : Nat) (history : List Msg) : List Msg :=
  if history.length > maxTurns * 2 then pySliceLast (maxTurns * 2) history
  else history

/-- `set_history` (redis_cache.py:52-55): store the (possibly truncated)
history under the session's history key.  The TTL refresh is not part of
the state model. -/
def set_history (maxTurns : Nat) (w : World) (session_id : String)
    (history : List Msg) : World :=
  { w with redisHist := fun s =>
      if s = session_id then set_history_trunc maxTurns history
      else w.redisHist s }

/-- `append_pair` (redis_cache.py:57-63): read-modify-write — fetch the
current history, extend it with the user/assistant pair, `set_history`. -/
def append_pair (maxTurns : Nat) (w : World) (session_id user_msg assistant_msg : String) :
    World :=
  set_history maxTurns w session_id
    (get_history w session_id ++
      [⟨"user", user_msg⟩, ⟨"assistant", assistant_msg⟩])

/-- `load_history_from_db` (crud.py:39-48): rows of the session ordered by
`created_at` ascending, `LIMIT limit`, projected to `{role, content}`.
On the insertion-ordered representation this is filter-then-take. -/
def load_history_from_db (db : List Row) (session_id : String) (limit : Nat) :
    List Msg :=
  ((db.filter (fun r => r.session_id = session_id)).take limit).map
    (fun r => ⟨r.role, r.message⟩)

/-- `upsert_session` (crud.py:11-18): create the session row when absent
(the `last_active_at` touch is not part of the state model). -/
def upsert_session (sessions : List SessionRow) (session_id : String)
    (character_id : Option Int) : List SessionRow :=
  if (sessions.find? (fun s => s.id = session_id)).isSome then sessions
  else sessions ++ [⟨session_id, character_id⟩]

/-- `add_turn` (crud.py:20-37): upsert the session and append the two rows
(user then assistant) in one commit. -/
def add_turn (w : World) (session_id : String) (character_id : Option Int)
    (character_name : Option String) (user_msg assistant_msg : String) : World :=
  { w with
    sessions := upsert_session w.sessions session_id character_id
    db := w.db ++
      [⟨session_id, character_id, character_name.getD "", "user", user_msg⟩,
       ⟨session_id, character_id, character_name.getD "", "assistant", assistant_msg⟩] }

/-- `get_character_by_name` (characters.py:9-10): first row with that name. -/
def get_character_by_name (chars : List CharacterInfo) (name : String) :
    Option CharacterInfo :=
  chars.find? (fun c => c.name = name)

/-- `get_character_by_id` (characters.py:12-13): first row with that id. -/
def get_character_by_id (chars : List CharacterInfo) (cid : Int) :
    Option CharacterInfo :=
  chars.find? (fun c => c.id = cid)

/-- The character-resolution step of `build_system_prompt`
(characters.py:17-21): `if character_id is not None` use the id lookup,
`elif character_name` (truthy) use the name lookup, else no character. -/
def resolveChar (chars : List CharacterInfo) (character_name : Option String)
    (character_id : Option Int) : Option CharacterInfo :=
  match character_id with
  | some cid => get_character_by_id chars cid
  | none =>
    if strTruthy character_name then
      get_character_by_name chars (character_name.getD "")
    else none

/-- `build_system_prompt` (characters.py:15-39): generic fallback persona
when no character resolves; otherwise the `parts` list built by the
conditional appends, joined with newlines. -/
def build_system_prompt (chars : List CharacterInfo) (character_name : Option String)
    (character_id : Option Int) : String :=
  match resolveChar chars character_name character_id with
  | none => "You are a helpful assistant."
  | some c =>
    let parts0 := ["你的名字：" ++ c.name]
    let parts1 := if strTruthy c.background then
        parts0 ++ ["背景：" ++ c.background.getD ""] else parts0
    let parts2 := if strTruthy c.personality then
        parts1 ++ ["性格：" ++ c.personality.getD ""] else parts1
    let parts3 := if strTruthy c.skills then
        parts2 ++ ["技能：" ++ c.skills.getD ""] else parts2
    let parts4 := if strTruthy c.current_playstyle then
        parts3 ++ ["当前对话风格：" ++ c.current_playstyle.getD ""] else parts3
    String.intercalate "\n" (parts4 ++ ["请保持符合人设的语气进行多轮对话。"])

/-- Spec-side rendering (for the refinement claim about the prompt policy):
"a deterministic ordered list of present (non-empty) attributes (name,
background, personality, skills, current style) followed by a fixed
instruction to stay in character". -/
def specPersonaRender (c : CharacterInfo) : String :=
  String.intercalate "\n"
    ((["你的名字：" ++ c.name] ++
      specAttrLine "背景：" c.background ++
      specAttrLine "性格：" c.personality ++
      specAttrLine "技能：" c.skills ++
      specAttrLine "当前对话风格：" c.current_playstyle) ++
     ["请保持符合人设的语气进行多轮对话。"])
where
  specAttrLine (label : String) : Option String → List String
    | none => []
    | some s => if s ≠ "" then [label ++ s] else []

/-- `assemble_messages` (main.py:83-91): `[system] + history + [user]`. -/
def assemble_messages (system_prompt : String) (history : List Msg)
    (user_msg : String) : List Msg :=
  ⟨"system", system_prompt⟩ :: history ++ [⟨"user", user_msg⟩]

/-- The history-loading step of both handlers (main.py:136-138, 192-194):
Redis first, and when that is empty (`if not history`) fall back to
`load_history_from_db(db, session_id, limit=100)`. -/
def effectiveHistory (w : World) (session_id : String) : List Msg :=
  let history := get_history w session_id
  if history = [] then load_history_from_db w.db session_id 100 else history

/-- `_fill_bound_character_if_absent` (main.py:104-111): when the request
carries neither a character id nor a truthy character name, take the
session's bound `character_id` when the session row exists and the bound
id is truthy. -/
def effectiveCharacterId (w : World) (session_id : String)
    (character_id : Option Int) (character_name : Option String) : Option Int :=
  if character_id = none && !(strTruthy character_name) then
    match w.sessions.find? (fun s => s.id = session_id) with
    | some s => if intTruthy s.character_id then s.character_id else character_id
    | none => character_id
  else character_id

/-- The system prompt a handler ends up using for a request (main.py
lines 141-144 / 197-200): bound-character fill, then `build_system_prompt`. -/
def chatSystemPrompt (w : World) (session_id : String)
    (character_id : Option Int) (character_name : Option String) : String :=
  build_system_prompt w.characters character_name
    (effectiveCharacterId w session_id character_id character_name)

/-- Write one session's lock key in the untimed lock view. -/
def lockWrite (w : World) (session_id : String) (v : Bool) : World :=
  { w with redisLock := fun s => if s = session_id then v else w.redisLock s }

/-! ### The timed lock model (redis_cache.py:70-79)

`acquire_session_lock` is a single `SET key 1 NX EX ttl`: it succeeds iff
the key is absent (never set, expired, or deleted), and on success stores
the key with expiry `now + ttl`.  `release_session_lock` is an
unconditional `DEL`.  Time is a `Nat` instant; a key with expiry `e` is
alive at `now` iff `now < e`. -/

/-- The lock keyspace with expiries: `none` = absent, `some e` = set, to
expire at instant `e`. -/
def LockMap : Type := String → Option Nat

/-- Is the lock key for `session_id` alive (present and unexpired) at `now`? -/
def lockAlive (m : LockMap) (session_id : String) (now : Nat) : Bool :=
  match m session_id with
  | some e => now < e
  | none => false

/-- `acquire_session_lock` (redis_cache.py:70-74): `SET ... NX EX ttl` at
instant `now` — returns the updated keyspace and whether this call
created the key. -/
def acquire_session_lock (ttl now : Nat) (m : LockMap) (session_id : String) :
    LockMap × Bool :=
  if lockAlive m session_id now then (m, false)
  else ((fun s => if s = session_id then some (now + ttl) else m s), true)

/-- `release_session_lock` (redis_cache.py:77-79): unconditional `DEL`. -/
def release_session_lock (m : LockMap) (session_id : String) : LockMap :=
  fun s => if s = session_id then none else m s

/-! ### The request handlers (main.py:116-236)

External outcomes that the Python observes are inputs of the model:
the upstream model call (`LLMResult` for `/chat`, `StreamOutcome` for
`/chat/stream`) and whether each of the two persistence writes raises
(`PFail`).  Each constructor corresponds to one control-flow path of the
handler; the model performs exactly the state updates the Python
performs on that path, with the `finally` release applied on every path
that runs after a successful lock acquisition. -/

/-- Request body of `/chat` and `/chat/stream` (the fields the handlers
branch on; the optional `model` override never touches shared state). -/
structure ChatIn where
  message : String
  session_id : String
  character_name : Option String
  character_id : Option Int
deriving DecidableEq, Repr

/-- Outcome of the one-shot upstream call `chat_completion`. -/
inductive LLMResult where
  | ok (reply : String)
  | err (msg : String)
deriving DecidableEq, Repr

/-- Outcome of the streaming upstream call: the fragments received,
either exhausted normally or cut by an exception after them. -/
inductive StreamOutcome where
  | complete (chunks : List String)
  | failAfter (chunks : List String) (msg : String)
deriving DecidableEq, Repr

/-- Whether the persistence step raises: `ok` none, `cacheFail` the
`append_pair` Redis write raises (nothing written), `storeFail` the
cache write succeeds but the `add_turn` commit raises (no rows). -/
inductive PFail where
  | ok
  | cacheFail
  | storeFail
deriving DecidableEq, Repr

/-- Result of one `/chat` request: the world after the request, the HTTP
status (200, 400, 409, 502, or 500 for an unhandled persistence error),
the JSON reply when any, and the message list submitted upstream when
the model call was reached. -/
structure ChatResult where
  world : World
  status : Nat
  reply : Option String
  messagesSent : Option (List Msg)

/-- The `/chat` handler (main.py:116-168): session-id check, `SET NX`
lock acquisition, history load with DB fallback, bound-character fill,
prompt assembly, upstream call, `append_pair` + `add_turn`, and the
`finally` that releases the lock on every path past acquisition. -/
def chat (maxTurns : Nat) (w : World) (b : ChatIn) (llm : LLMResult) (pf : PFail) :
    ChatResult :=
  if b.session_id = "" then ⟨w, 400, none, none⟩
  else if w.redisLock b.session_id then ⟨w, 409, none, none⟩
  else
    let w1 := lockWrite w b.session_id true
    let history := effectiveHistory w1 b.session_id
    let cid := effectiveCharacterId w1 b.session_id b.character_id b.character_name
    let system_prompt := build_system_prompt w1.characters b.character_name cid
    let messages := assemble_messages system_prompt history b.message
    match llm with
    | .err e =>
      ⟨lockWrite w1 b.session_id false, 502, some e, some messages⟩
    | .ok reply =>
      match pf with
      | .cacheFail =>
        ⟨lockWrite w1 b.session_id false, 500, none, some messages⟩
      | .storeFail =>
        let w2 := append_pair maxTurns w1 b.session_id b.message reply
        ⟨lockWrite w2 b.session_id false, 500, none, some messages⟩
      | .ok =>
        let w2 := append_pair maxTurns w1 b.session_id b.message reply
        let w3 := add_turn w2 b.session_id cid b.character_name b.message reply
        ⟨lockWrite w3 b.session_id false, 200, some reply, some messages⟩

/-- One event of the SSE stream `/chat/stream` emits. -/
inductive SSEEvent where
  | content (s : String)
  | errorEv (s : String)
  | done
deriving DecidableEq, Repr

/-- One observable step of the streaming generator, in order: an emitted
event, the Redis history write, or the DB commit. -/
inductive TraceItem where
  | ev (e : SSEEvent)
  | cacheWrite
  | storeWrite
deriving DecidableEq, Repr

/-- The events of a generator trace, in emission order. -/
def eventsOf (tr : List TraceItem) : List SSEEvent :=
  tr.filterMap fun
    | .ev e => some e
    | .cacheWrite => none
    | .storeWrite => none

/-- Result of one `/chat/stream` request: the world after the request,
the HTTP status of the response, and the generator's observable trace
(empty when the request was rejected before streaming). -/
structure StreamResult where
  world : World
  status : Nat
  trace : List TraceItem

/-- The `/chat/stream` handler and its generator (main.py:173-236):
the same checks and lock acquisition, then the generator forwards each
fragment as a `content` event while accumulating it; an upstream error
mid-stream yields one `error` event then `[DONE]` and returns without
persisting; normal exhaustion persists `"".join(fragments)` via
`append_pair` then `add_turn` and only then yields `[DONE]`; a raising
persistence write ends the generator with no further events.  The
`finally` releases the lock on every one of those paths. -/
def chat_stream (maxTurns : Nat) (w : World) (b : ChatIn) (llm : StreamOutcome)
    (pf : PFail) : StreamResult :=
  if b.session_id = "" then ⟨w, 400, []⟩
  else if w.redisLock b.session_id then ⟨w, 409, []⟩
  else
    let w1 := lockWrite w b.session_id true
    match llm with
    | .failAfter chunks e =>
      ⟨lockWrite w1 b.session_id false, 200,
        chunks.map (fun c => .ev (.content c)) ++ [.ev (.errorEv e), .ev .done]⟩
    | .complete chunks =>
      let full_text := String.join chunks
      match pf with
      | .cacheFail =>
        ⟨lockWrite w1 b.session_id false, 200,
          chunks.map (fun c => .ev (.content c))⟩
      | .storeFail =>
        let w2 := append_pair maxTurns w1 b.session_id b.message full_text
        ⟨lockWrite w2 b.session_id false, 200,
          chunks.map (fun c => .ev (.content c)) ++ [.cacheWrite]⟩
      | .ok =>
        let cid := effectiveCharacterId w1 b.session_id b.character_id b.character_name
        let w2 := append_pair maxTurns w1 b.session_id b.message full_text
        let w3 := add_turn w2 b.session_id cid b.character_name b.message full_text
        ⟨lockWrite w3 b.session_id false, 200,
          chunks.map (fun c => .ev (.content c)) ++
            [.cacheWrite, .storeWrite, .ev .done]⟩

/-! ### Derived definitions used by the claims -/

/-- The chronological message list of a list of user/assistant pairs. -/
def pairsFlatten : List (String × String) → List Msg
  | [] => []
  | p :: ps => ⟨"user", p.1⟩ :: ⟨"assistant", p.2⟩ :: pairsFlatten ps

/-- Append a sequence of user/assistant pairs through `append_pair`,
one turn after another. -/
def appendPairs (maxTurns : Nat) (w : World) (session_id : String)
    (ps : List (String × String)) : World :=
  ps.foldl (fun w p => append_pair maxTurns w session_id p.1 p.2) w

/-- A world with empty Redis, empty tables, no characters. -/
def emptyWorld : World :=
  ⟨fun _ => [], fun _ => false, [], [], []⟩

/-- A `chat_history` table with 101 rows for session `"s"` in creation
order (one more than the handlers' `limit=100`), with distinct messages. -/
def db101 : List Row :=
  (List.range 101).map (fun i =>
    ⟨"s", none, "", if i % 2 = 0 then "user" else "assistant", toString i⟩)

/-- A world whose durable store holds the 101 rows of `db101` while the
history cache is empty. -/
def world101 : World :=
  ⟨fun _ => [], fun _ => false, db101, [], []⟩

/-- A sample character row for concrete witnesses. -/
def sampleChar : CharacterInfo :=
  ⟨7, "林黛玉", some "红楼梦人物", none, some "诗词", some ""⟩

/-! ### Helper lemmas -/

theorem takeLast_eq_reverse_take (k : Nat) (l : List α) :
    takeLast k l = (l.reverse.take k).reverse :=
  List.rtake_eq_reverse_take_reverse ..

theorem take_append_take (k : Nat) (a b : List α) :
    (a ++ b.take k).take k = (a ++ b).take k := by
  rw [List.take_append_eq_append_take, List.take_append_eq_append_take, List.take_take,
    Nat.min_eq_left (Nat.sub_le k a.length)]

theorem takeLast_takeLast_append (k : Nat) (xs ys : List α) :
    takeLast k (takeLast k xs ++ ys) = takeLast k (xs ++ ys) := by
  simp only [takeLast_eq_reverse_take, List.reverse_append, List.reverse_reverse]
  rw [take_append_take]

theorem takeLast_nil (k : Nat) : takeLast k ([] : List α) = [] := by
  simp [takeLast]

theorem takeLast_length (k : Nat) (l : List α) :
    (takeLast k l).length = l.length - (l.length - k) := by
  simp [takeLast]

theorem set_history_trunc_eq_takeLast {maxTurns : Nat} (hmt : 1 ≤ maxTurns)
    (h : List Msg) :
    set_history_trunc maxTurns h = takeLast (maxTurns * 2) h := by
  unfold set_history_trunc pySliceLast takeLast
  by_cases hlen : h.length > maxTurns * 2
  · rw [if_pos hlen, if_neg (by omega)]
  · rw [if_neg hlen]
    have h0 : h.length - maxTurns * 2 = 0 := by omega
    rw [h0, List.drop_zero]

theorem get_history_set_history (mt : Nat) (w : World) (sid : String)
    (h : List Msg) :
    get_history (set_history mt w sid h) sid = set_history_trunc mt h := by
  simp [set_history, get_history]

theorem get_history_append_pair (mt : Nat) (w : World) (sid u a : String) :
    get_history (append_pair mt w sid u a) sid =
      set_history_trunc mt (get_history w sid ++ [⟨"user", u⟩, ⟨"assistant", a⟩]) := by
  simp [append_pair, set_history, get_history]

theorem pairsFlatten_length (ps : List (String × String)) :
    (pairsFlatten ps).length = 2 * ps.length := by
  induction ps with
  | nil => rfl
  | cons p ps ih => simp [pairsFlatten, ih]; omega

theorem get_history_appendPairs {mt : Nat} (hmt : 1 ≤ mt) (sid : String)
    (ps : List (String × String)) :
    ∀ (w : World) (xs : List Msg), get_history w sid = takeLast (mt * 2) xs →
      get_history (appendPairs mt w sid ps) sid =
        takeLast (mt * 2) (xs ++ pairsFlatten ps) := by
  induction ps with
  | nil =>
    intro w xs hw
    simpa [appendPairs, pairsFlatten] using hw
  | cons p ps ih =>
    intro w xs hw
    have hstep : get_history (append_pair mt w sid p.1 p.2) sid =
        takeLast (mt * 2) (xs ++ [⟨"user", p.1⟩, ⟨"assistant", p.2⟩]) := by
      rw [get_history_append_pair, hw, set_history_trunc_eq_takeLast hmt,
        takeLast_takeLast_append]
    have := ih (append_pair mt w sid p.1 p.2)
      (xs ++ [⟨"user", p.1⟩, ⟨"assistant", p.2⟩]) hstep
    calc get_history (appendPairs mt w sid (p :: ps)) sid
        = get_history (appendPairs mt (append_pair mt w sid p.1 p.2) sid ps) sid := by
          simp [appendPairs]
      _ = takeLast (mt * 2) ((xs ++ [⟨"user", p.1⟩, ⟨"assistant", p.2⟩]) ++ pairsFlatten ps) := this
      _ = takeLast (mt * 2) (xs ++ pairsFlatten (p :: ps)) := by
          simp [pairsFlatten, List.append_assoc]

theorem set_history_trunc_pair (mt : Nat) (m1 m2 : Msg) :
    set_history_trunc mt [m1, m2] = [m1, m2] := by
  unfold set_history_trunc pySliceLast
  by_cases h : mt = 0
  · subst h; simp
  · have h2 : ¬ (([m1, m2] : List Msg).length > mt * 2) := by
      simp only [List.length_cons, List.length_nil]
      omega
    rw [if_neg h2]

/-! ### The claims -/


theorem acquire_snd (ttl now : Nat) (m : LockMap) (sid : String) :
    (acquire_session_lock ttl now m sid).2 = !(lockAlive m sid now) := by
  unfold acquire_session_lock
  by_cases h : lockAlive m sid now <;> simp [h]

theorem acquire_fst_pos {m : LockMap} {sid : String} {now : Nat} (ttl : Nat)
    (h : lockAlive m sid now = true) :
    (acquire_session_lock ttl now m sid).1 = m := by
  unfold acquire_session_lock
  rw [if_pos h]

theorem acquire_fst_neg {m : LockMap} {sid : String} {now : Nat} (ttl : Nat)
    (h : lockAlive m sid now = false) :
    (acquire_session_lock ttl now m sid).1 =
      fun s => if s = sid then some (now + ttl) else m s := by
  unfold acquire_session_lock
  rw [if_neg (by simp [h])]

theorem lockAlive_update_self (m : LockMap) (sid : String) (e t : Nat) :
    lockAlive (fun s => if s = sid then some e else m s) sid t = decide (t < e) := by
  simp [lockAlive]

theorem lockAlive_release (m : LockMap) (sid : String) (t : Nat) :
    lockAlive (release_session_lock m sid) sid t = false := by
  simp [lockAlive, release_session_lock]

/-- Claim C2: `acquire_session_lock` creates the lock key only if it is
absent (never set, expired, or released) and returns `true` iff this call
created it, storing expiry `now + ttl`; a failed acquire leaves the
keyspace unchanged; while an acquired lock's TTL has not elapsed a second
acquire returns `false`; after `release_session_lock`, or once the TTL
has elapsed without a release, an acquire returns `true` again. -/
theorem claim_C2_session_lock (ttl now : Nat) (m : LockMap) (sid : String) :
    ((acquire_session_lock ttl now m sid).2 = true ↔ lockAlive m sid now = false)
    ∧ ((acquire_session_lock ttl now m sid).2 = true →
        (acquire_session_lock ttl now m sid).1 sid = some (now + ttl))
    ∧ ((acquire_session_lock ttl now m sid).2 = false →
        (acquire_session_lock ttl now m sid).1 = m)
    ∧ (∀ t1, (acquire_session_lock ttl now m sid).2 = true → t1 < now + ttl →
        (acquire_session_lock ttl t1 (acquire_session_lock ttl now m sid).1 sid).2 = false)
    ∧ (∀ t1, (acquire_session_lock ttl t1
        (release_session_lock (acquire_session_lock ttl now m sid).1 sid) sid).2 = true)
    ∧ (∀ t1, (acquire_session_lock ttl now m sid).2 = true → now + ttl ≤ t1 →
        (acquire_session_lock ttl t1 (acquire_session_lock ttl now m sid).1 sid).2 = true) := by
  refine ⟨?_, ?_, ?_, ?_, ?_, ?_⟩
  · rw [acquire_snd]
    cases hA : lockAlive m sid now <;> simp
  · intro hx
    rw [acquire_snd, Bool.not_eq_true'] at hx
    rw [acquire_fst_neg ttl hx]
    simp
  · intro hx
    rw [acquire_snd, Bool.not_eq_false'] at hx
    exact acquire_fst_pos ttl hx
  · intro t1 hx ht1
    rw [acquire_snd, Bool.not_eq_true'] at hx
    rw [acquire_snd, acquire_fst_neg ttl hx, lockAlive_update_self]
    simp [ht1]
  · intro t1
    rw [acquire_snd, lockAlive_release]
    rfl
  · intro t1 hx ht1
    rw [acquire_snd, Bool.not_eq_true'] at hx
    rw [acquire_snd, acquire_fst_neg ttl hx, lockAlive_update_self]
    simp
    omega

/-- Witness for claim C2 at `ttl = 60`, an empty lock keyspace, and
instants 0 (first acquire), 30 (blocked re-acquire), 5 (re-acquire after
release), 60 (re-acquire after TTL elapsed). -/
theorem claim_C2_session_lock_witness :
    ((acquire_session_lock 60 0 (fun _ => none) "s").2 = true)
    ∧ ((acquire_session_lock 60 30
        (acquire_session_lock 60 0 (fun _ => none) "s").1 "s").2 = false)
    ∧ ((acquire_session_lock 60 5
        (release_session_lock (acquire_session_lock 60 0 (fun _ => none) "s").1 "s") "s").2 = true)
    ∧ ((acquire_session_lock 60 60
        (acquire_session_lock 60 0 (fun _ => none) "s").1 "s").2 = true) := by
  refine ⟨?_, ?_, ?_, ?_⟩
  · exact (claim_C2_session_lock 60 0 (fun _ => none) "s").1.mpr rfl
  · exact (claim_C2_session_lock 60 0 (fun _ => none) "s").2.2.2.1 30 rfl (by decide)
  · exact (claim_C2_session_lock 60 0 (fun _ => none) "s").2.2.2.2.1 5
  · exact (claim_C2_session_lock 60 0 (fun _ => none) "s").2.2.2.2.2 60 rfl (by decide)

/-- Claim C5 (amended to `MAX_TURNS ≥ 1`): for `MAX_TURNS = N ≥ 1`, a
history longer than `N * 2` entries written through `set_history` is
truncated to the most recent `N * 2` entries (oldest dropped), and after
appending `N + 1` user/assistant pairs through `append_pair` to a session
with an empty cache, `get_history` returns exactly `N * 2` entries and
they are the most recent `N * 2` of the appended messages in
chronological order.  (For `MAX_TURNS = 0` the Python slice
`history[-0:]` keeps the whole list, so nothing is truncated.) -/
theorem claim_C5_bounded_history (N : Nat) (hN : 1 ≤ N) :
    (∀ (w : World) (sid : String) (h : List Msg), h.length > N * 2 →
        get_history (set_history N w sid h) sid = takeLast (N * 2) h ∧
        (get_history (set_history N w sid h) sid).length = N * 2)
    ∧ (∀ (w : World) (sid : String) (ps : List (String × String)),
        get_history w sid = [] → ps.length = N + 1 →
        get_history (appendPairs N w sid ps) sid = takeLast (N * 2) (pairsFlatten ps) ∧
        (get_history (appendPairs N w sid ps) sid).length = N * 2) := by
  constructor
  · intro w sid h hlen
    rw [get_history_set_history, set_history_trunc_eq_takeLast hN]
    refine ⟨rfl, ?_⟩
    rw [takeLast_length]
    omega
  · intro w sid ps hmiss hlen
    have hbase : get_history w sid = takeLast (N * 2) ([] : List Msg) := by
      rw [hmiss, takeLast_nil]
    have hmain := get_history_appendPairs hN sid ps w [] hbase
    rw [List.nil_append] at hmain
    refine ⟨hmain, ?_⟩
    rw [hmain, takeLast_length, pairsFlatten_length, hlen]
    omega

/-- Counterexample to claim C5 as stated: with `MAX_TURNS = 0`, a
3-entry history (longer than `2 × MAX_TURNS = 0`) written through
`set_history` is stored whole instead of being truncated to 0 entries,
and after appending `0 + 1` pairs `get_history` returns 2 entries, not
`2 × 0 = 0` — Python's `history[-0:]` is the whole list. -/
theorem claim_C5_counterexample :
    get_history (set_history 0 emptyWorld "s"
        [⟨"user", "a"⟩, ⟨"assistant", "A"⟩, ⟨"user", "b"⟩]) "s" =
      [⟨"user", "a"⟩, ⟨"assistant", "A"⟩, ⟨"user", "b"⟩]
    ∧ get_history (appendPairs 0 emptyWorld "s" [("a", "A")]) "s" =
      [⟨"user", "a"⟩, ⟨"assistant", "A"⟩] := by
  constructor
  · rfl
  · rfl

/-- Witness for claim C5 at `MAX_TURNS = 1`: a 3-entry history is
truncated to its last 2 entries, and appending 2 pairs to an empty
session leaves exactly the later pair's 2 entries. -/
theorem claim_C5_bounded_history_witness :
    (get_history (set_history 1 emptyWorld "s"
        [⟨"user", "a"⟩, ⟨"assistant", "A"⟩, ⟨"user", "b"⟩]) "s" =
      takeLast (1 * 2) [⟨"user", "a"⟩, ⟨"assistant", "A"⟩, ⟨"user", "b"⟩] ∧
     (get_history (set_history 1 emptyWorld "s"
        [⟨"user", "a"⟩, ⟨"assistant", "A"⟩, ⟨"user", "b"⟩]) "s").length = 1 * 2)
    ∧ (get_history (appendPairs 1 emptyWorld "s" [("a", "A"), ("b", "B")]) "s" =
        takeLast (1 * 2) (pairsFlatten [("a", "A"), ("b", "B")]) ∧
       (get_history (appendPairs 1 emptyWorld "s" [("a", "A"), ("b", "B")]) "s").length = 1 * 2) := by
  refine ⟨?_, ?_⟩
  · exact (claim_C5_bounded_history 1 (by decide)).1 emptyWorld "s" _ (by decide)
  · exact (claim_C5_bounded_history 1 (by decide)).2 emptyWorld "s"
      [("a", "A"), ("b", "B")] rfl rfl

/-- Claim C3: in every `/chat` or `/chat/stream` turn in which the lock
was acquired (non-empty session id, lock free), the session lock key is
deleted on every exit path — normal success, upstream model failure, and
a cache- or store-write failure — because the release runs in the
handlers' `finally`. -/
theorem claim_C3_lock_released (maxTurns : Nat) (w : World) (b : ChatIn)
    (hsid : b.session_id ≠ "") (hfree : w.redisLock b.session_id = false) :
    (∀ (llm : LLMResult) (pf : PFail),
      (chat maxTurns w b llm pf).world.redisLock b.session_id = false)
    ∧ (∀ (llm : StreamOutcome) (pf : PFail),
      (chat_stream maxTurns w b llm pf).world.redisLock b.session_id = false) := by
  constructor
  · intro llm pf
    cases llm <;> cases pf <;> simp [chat, hsid, hfree, lockWrite]
  · intro llm pf
    cases llm <;> cases pf <;> simp [chat_stream, hsid, hfree, lockWrite]

/-- Witness for claim C3: an upstream failure on `/chat` and a
cache-write failure on `/chat/stream`, both against an empty world. -/
theorem claim_C3_lock_released_witness :
    (chat 20 emptyWorld ⟨"hi", "s", none, none⟩ (.err "boom") .ok).world.redisLock "s" = false
    ∧ (chat_stream 20 emptyWorld ⟨"hi", "s", none, none⟩
        (.complete ["x"]) .cacheFail).world.redisLock "s" = false := by
  refine ⟨?_, ?_⟩
  · exact (claim_C3_lock_released 20 emptyWorld ⟨"hi", "s", none, none⟩
      (by decide) rfl).1 (.err "boom") .ok
  · exact (claim_C3_lock_released 20 emptyWorld ⟨"hi", "s", none, none⟩
      (by decide) rfl).2 (.complete ["x"]) .cacheFail

/-- Claim C4: when the model call fails, no persistence occurs — the whole
Redis history keyspace and the whole `chat_history` table after the
failed `/chat` or `/chat/stream` turn equal those before it. -/
theorem claim_C4_no_persistence_on_upstream_failure (maxTurns : Nat) (w : World)
    (b : ChatIn) (e : String) (chunks : List String) (pf : PFail)
    (hsid : b.session_id ≠ "") (hfree : w.redisLock b.session_id = false) :
    ((chat maxTurns w b (.err e) pf).world.redisHist = w.redisHist ∧
     (chat maxTurns w b (.err e) pf).world.db = w.db)
    ∧ ((chat_stream maxTurns w b (.failAfter chunks e) pf).world.redisHist = w.redisHist ∧
       (chat_stream maxTurns w b (.failAfter chunks e) pf).world.db = w.db) := by
  refine ⟨⟨?_, ?_⟩, ⟨?_, ?_⟩⟩ <;> simp [chat, chat_stream, hsid, hfree, lockWrite]

/-- Witness for claim C4 on a world whose store already holds turns for
the session. -/
theorem claim_C4_no_persistence_on_upstream_failure_witness :
    ((chat 20 world101 ⟨"hi", "s", none, none⟩ (.err "boom") .ok).world.redisHist =
        world101.redisHist ∧
     (chat 20 world101 ⟨"hi", "s", none, none⟩ (.err "boom") .ok).world.db = world101.db)
    ∧ ((chat_stream 20 world101 ⟨"hi", "s", none, none⟩
          (.failAfter ["部分"] "boom") .ok).world.redisHist = world101.redisHist ∧
       (chat_stream 20 world101 ⟨"hi", "s", none, none⟩
          (.failAfter ["部分"] "boom") .ok).world.db = world101.db) :=
  claim_C4_no_persistence_on_upstream_failure 20 world101 ⟨"hi", "s", none, none⟩
    "boom" ["部分"] .ok (by decide) rfl

/-- Claim C8: an empty session id is rejected with status 400 and a held
session lock with status 409, on both endpoints, before any side effect:
the world is returned unchanged, nothing was sent upstream, and no event
was streamed. -/
theorem claim_C8_reject_before_side_effects (maxTurns : Nat) (w : World) (b : ChatIn)
    (llm : LLMResult) (sllm : StreamOutcome) (pf : PFail) :
    (b.session_id = "" →
      chat maxTurns w b llm pf = ⟨w, 400, none, none⟩ ∧
      chat_stream maxTurns w b sllm pf = ⟨w, 400, []⟩)
    ∧ (b.session_id ≠ "" → w.redisLock b.session_id = true →
      chat maxTurns w b llm pf = ⟨w, 409, none, none⟩ ∧
      chat_stream maxTurns w b sllm pf = ⟨w, 409, []⟩) := by
  constructor
  · intro h
    exact ⟨by simp [chat, h], by simp [chat_stream, h]⟩
  · intro h hl
    exact ⟨by simp [chat, h, hl], by simp [chat_stream, h, hl]⟩

/-- Witness for claim C8: the empty session id, and a held lock. -/
theorem claim_C8_reject_before_side_effects_witness :
    (chat 20 emptyWorld ⟨"hi", "", none, none⟩ (.ok "r") .ok = ⟨emptyWorld, 400, none, none⟩ ∧
     chat_stream 20 emptyWorld ⟨"hi", "", none, none⟩ (.complete ["x"]) .ok = ⟨emptyWorld, 400, []⟩)
    ∧ (chat 20 (lockWrite emptyWorld "s" true) ⟨"hi", "s", none, none⟩ (.ok "r") .ok =
        ⟨lockWrite emptyWorld "s" true, 409, none, none⟩ ∧
       chat_stream 20 (lockWrite emptyWorld "s" true) ⟨"hi", "s", none, none⟩
          (.complete ["x"]) .ok = ⟨lockWrite emptyWorld "s" true, 409, []⟩) := by
  refine ⟨?_, ?_⟩
  · exact (claim_C8_reject_before_side_effects 20 emptyWorld ⟨"hi", "", none, none⟩
      (.ok "r") (.complete ["x"]) .ok).1 rfl
  · exact (claim_C8_reject_before_side_effects 20 (lockWrite emptyWorld "s" true)
      ⟨"hi", "s", none, none⟩ (.ok "r") (.complete ["x"]) .ok).2 (by decide) (by simp [lockWrite])

/-- Counterexample to claim C6 as stated: a `/chat` turn on a session
with 101 durable rows and an empty cache starts with a cache miss, but
after the turn succeeds the cache holds the newly appended pair, so the
next read does not miss. -/
theorem claim_C6_counterexample :
    get_history world101 "s" = []
    ∧ get_history (chat 20 world101 ⟨"hi", "s", none, none⟩ (.ok "回复") .ok).world "s" =
        [⟨"user", "hi"⟩, ⟨"assistant", "回复"⟩]
    ∧ ¬ get_history (chat 20 world101 ⟨"hi", "s", none, none⟩ (.ok "回复") .ok).world "s" = [] := by
  refine ⟨rfl, by decide, by decide⟩

/-- Claim C6 (amended): on a cache miss the orchestrator reads from the
durable store and never writes the loaded history back to the cache — a
turn that aborts on upstream failure leaves the cache entry empty, so
the next read misses again and pays the store query; but a turn that
completes successfully appends the new pair, so the next read hits a
cache holding only that pair. -/
theorem claim_C6_amended (maxTurns : Nat) (w : World) (b : ChatIn) (pf : PFail)
    (hsid : b.session_id ≠ "") (hfree : w.redisLock b.session_id = false)
    (hmiss : get_history w b.session_id = []) :
    (∀ e, get_history (chat maxTurns w b (.err e) pf).world b.session_id = [])
    ∧ (∀ reply, get_history (chat maxTurns w b (.ok reply) .ok).world b.session_id =
        [⟨"user", b.message⟩, ⟨"assistant", reply⟩]) := by
  constructor
  · intro e
    simpa [chat, hsid, hfree, lockWrite, get_history] using hmiss
  · intro reply
    simp [chat, hsid, hfree, lockWrite, get_history, add_turn, append_pair, set_history]
    rw [show w.redisHist b.session_id = [] from hmiss]
    simpa using set_history_trunc_pair maxTurns ⟨"user", b.message⟩ ⟨"assistant", reply⟩

/-- Witness for claim C6 (amended) on the 101-row world. -/
theorem claim_C6_amended_witness :
    get_history (chat 20 world101 ⟨"hi", "s", none, none⟩ (.err "boom") .ok).world "s" = []
    ∧ get_history (chat 20 world101 ⟨"hi", "s", none, none⟩ (.ok "回复") .ok).world "s" =
        [⟨"user", "hi"⟩, ⟨"assistant", "回复"⟩] := by
  refine ⟨?_, ?_⟩
  · exact (claim_C6_amended 20 world101 ⟨"hi", "s", none, none⟩ .ok
      (by decide) rfl rfl).1 "boom"
  · exact (claim_C6_amended 20 world101 ⟨"hi", "s", none, none⟩ .ok
      (by decide) rfl rfl).2 "回复"

/-- Claim C7: after a successful `/chat` turn that fell back to the
durable store (cache miss, session has durable turns), the cache entry
holds exactly the two newly appended turns — the history loaded from the
store is not included — and the next turn's effective history for prompt
assembly is exactly those two turns, with none of the earlier durable
turns. -/
theorem claim_C7_cache_after_fallback (maxTurns : Nat) (w : World) (b : ChatIn)
    (reply : String)
    (hsid : b.session_id ≠ "") (hfree : w.redisLock b.session_id = false)
    (hmiss : get_history w b.session_id = [])
    (_hdur : load_history_from_db w.db b.session_id 100 ≠ []) :
    get_history (chat maxTurns w b (.ok reply) .ok).world b.session_id =
      [⟨"user", b.message⟩, ⟨"assistant", reply⟩]
    ∧ effectiveHistory (chat maxTurns w b (.ok reply) .ok).world b.session_id =
      [⟨"user", b.message⟩, ⟨"assistant", reply⟩] := by
  have hcache : get_history (chat maxTurns w b (.ok reply) .ok).world b.session_id =
      [⟨"user", b.message⟩, ⟨"assistant", reply⟩] := by
    simp [chat, hsid, hfree, lockWrite, get_history, add_turn, append_pair, set_history]
    rw [show w.redisHist b.session_id = [] from hmiss]
    simpa using set_history_trunc_pair maxTurns ⟨"user", b.message⟩ ⟨"assistant", reply⟩
  refine ⟨hcache, ?_⟩
  rw [effectiveHistory]
  simp only [hcache]
  rw [if_neg (by simp)]

/-- Witness for claim C7 on the 101-row world. -/
theorem claim_C7_cache_after_fallback_witness :
    get_history (chat 20 world101 ⟨"hi", "s", none, none⟩ (.ok "回复") .ok).world "s" =
      [⟨"user", "hi"⟩, ⟨"assistant", "回复"⟩]
    ∧ effectiveHistory (chat 20 world101 ⟨"hi", "s", none, none⟩ (.ok "回复") .ok).world "s" =
      [⟨"user", "hi"⟩, ⟨"assistant", "回复"⟩] :=
  claim_C7_cache_after_fallback 20 world101 ⟨"hi", "s", none, none⟩ "回复"
    (by decide) rfl rfl (by decide)

theorem eventsOf_contents (chunks : List String) :
    eventsOf (chunks.map (fun c => TraceItem.ev (SSEEvent.content c))) =
      chunks.map SSEEvent.content := by
  induction chunks with
  | nil => rfl
  | cons c cs ih =>
    simp only [List.map_cons]
    show SSEEvent.content c ::
      eventsOf (cs.map (fun c => TraceItem.ev (SSEEvent.content c))) = _
    rw [ih]

theorem count_done_contents (chunks : List String) :
    (chunks.map SSEEvent.content).count SSEEvent.done = 0 := by
  rw [List.count_eq_zero]
  simp

/-- Counterexample to claim C9 as stated: a `/chat/stream` turn whose
upstream stream exhausts normally but whose cache write raises produces
an event sequence with no terminal `[DONE]` marker at all — the
generator dies inside the persistence step. -/
theorem claim_C9_counterexample :
    eventsOf (chat_stream 20 emptyWorld ⟨"hi", "s", none, none⟩
        (.complete ["片", "段"]) .cacheFail).trace =
      [SSEEvent.content "片", SSEEvent.content "段"]
    ∧ SSEEvent.done ∉ eventsOf (chat_stream 20 emptyWorld ⟨"hi", "s", none, none⟩
        (.complete ["片", "段"]) .cacheFail).trace := by
  refine ⟨by decide, by decide⟩

/-- Claim C9 (amended to turns whose persistence writes do not raise):
on an upstream error mid-stream the trace is the forwarded fragments,
then exactly one error event immediately followed by the terminal
marker, and no persistence occurs; on normal exhaustion with successful
writes the terminal marker is emitted only after the cache write and the
store commit, the persisted assistant message (in both cache and store)
is the concatenation of all forwarded fragments, and the event sequence
contains exactly one terminal marker.  When a persistence write raises,
the stream ends with no terminal marker (see the counterexample). -/
theorem claim_C9_stream_events (maxTurns : Nat) (w : World) (b : ChatIn)
    (chunks : List String) (e : String)
    (hsid : b.session_id ≠ "") (hfree : w.redisLock b.session_id = false) :
    ((chat_stream maxTurns w b (.failAfter chunks e) .ok).trace =
        chunks.map (fun c => .ev (.content c)) ++ [.ev (.errorEv e), .ev .done]
      ∧ (eventsOf (chat_stream maxTurns w b (.failAfter chunks e) .ok).trace).count
          SSEEvent.done = 1
      ∧ (chat_stream maxTurns w b (.failAfter chunks e) .ok).world.redisHist = w.redisHist
      ∧ (chat_stream maxTurns w b (.failAfter chunks e) .ok).world.db = w.db)
    ∧ ((chat_stream maxTurns w b (.complete chunks) .ok).trace =
        chunks.map (fun c => .ev (.content c)) ++ [.cacheWrite, .storeWrite, .ev .done]
      ∧ (eventsOf (chat_stream maxTurns w b (.complete chunks) .ok).trace).count
          SSEEvent.done = 1
      ∧ (chat_stream maxTurns w b (.complete chunks) .ok).world.redisHist b.session_id =
          set_history_trunc maxTurns (w.redisHist b.session_id ++
            [⟨"user", b.message⟩, ⟨"assistant", String.join chunks⟩])
      ∧ (chat_stream maxTurns w b (.complete chunks) .ok).world.db =
          w.db ++
            [⟨b.session_id,
              effectiveCharacterId w b.session_id b.character_id b.character_name,
              b.character_name.getD "", "user", b.message⟩,
             ⟨b.session_id,
              effectiveCharacterId w b.session_id b.character_id b.character_name,
              b.character_name.getD "", "assistant", String.join chunks⟩]) := by
  have htr : (chat_stream maxTurns w b (.failAfter chunks e) .ok).trace =
      chunks.map (fun c => .ev (.content c)) ++ [.ev (.errorEv e), .ev .done] := by
    simp [chat_stream, hsid, hfree]
  have htr2 : (chat_stream maxTurns w b (.complete chunks) .ok).trace =
      chunks.map (fun c => .ev (.content c)) ++ [.cacheWrite, .storeWrite, .ev .done] := by
    simp [chat_stream, hsid, hfree]
  refine ⟨⟨htr, ?_, ?_, ?_⟩, ⟨htr2, ?_, ?_, ?_⟩⟩
  · rw [htr, eventsOf, List.filterMap_append]
    rw [show (chunks.map fun c => TraceItem.ev (SSEEvent.content c)).filterMap _ =
        eventsOf (chunks.map fun c => TraceItem.ev (SSEEvent.content c)) from rfl,
      eventsOf_contents, List.count_append, count_done_contents]
    rfl
  · simp [chat_stream, hsid, hfree, lockWrite]
  · simp [chat_stream, hsid, hfree, lockWrite]
  · rw [htr2, eventsOf, List.filterMap_append]
    rw [show (chunks.map fun c => TraceItem.ev (SSEEvent.content c)).filterMap _ =
        eventsOf (chunks.map fun c => TraceItem.ev (SSEEvent.content c)) from rfl,
      eventsOf_contents, List.count_append, count_done_contents]
    rfl
  · simp [chat_stream, hsid, hfree, lockWrite, append_pair, add_turn, set_history,
      get_history]
  · simp [chat_stream, hsid, hfree, lockWrite, append_pair, add_turn, set_history,
      effectiveCharacterId]

/-- Witness for claim C9 (amended): two fragments, against the empty
world, for both the mid-stream-error and the normal-exhaustion case. -/
theorem claim_C9_stream_events_witness :
    ((chat_stream 20 emptyWorld ⟨"hi", "s", none, none⟩ (.failAfter ["片", "段"] "boom") .ok).trace =
        (["片", "段"] : List String).map (fun c => .ev (.content c)) ++
          [.ev (.errorEv "boom"), .ev .done]
      ∧ (eventsOf (chat_stream 20 emptyWorld ⟨"hi", "s", none, none⟩
          (.failAfter ["片", "段"] "boom") .ok).trace).count SSEEvent.done = 1
      ∧ (chat_stream 20 emptyWorld ⟨"hi", "s", none, none⟩
          (.failAfter ["片", "段"] "boom") .ok).world.redisHist = emptyWorld.redisHist
      ∧ (chat_stream 20 emptyWorld ⟨"hi", "s", none, none⟩
          (.failAfter ["片", "段"] "boom") .ok).world.db = emptyWorld.db)
    ∧ ((chat_stream 20 emptyWorld ⟨"hi", "s", none, none⟩ (.complete ["片", "段"]) .ok).trace =
        (["片", "段"] : List String).map (fun c => .ev (.content c)) ++
          [.cacheWrite, .storeWrite, .ev .done]
      ∧ (eventsOf (chat_stream 20 emptyWorld ⟨"hi", "s", none, none⟩
          (.complete ["片", "段"]) .ok).trace).count SSEEvent.done = 1
      ∧ (chat_stream 20 emptyWorld ⟨"hi", "s", none, none⟩
          (.complete ["片", "段"]) .ok).world.redisHist "s" =
          set_history_trunc 20 (emptyWorld.redisHist "s" ++
            [⟨"user", "hi"⟩, ⟨"assistant", String.join ["片", "段"]⟩])
      ∧ (chat_stream 20 emptyWorld ⟨"hi", "s", none, none⟩
          (.complete ["片", "段"]) .ok).world.db =
          emptyWorld.db ++
            [⟨"s", effectiveCharacterId emptyWorld "s" none none, "", "user", "hi"⟩,
             ⟨"s", effectiveCharacterId emptyWorld "s" none none, "", "assistant",
              String.join ["片", "段"]⟩]) :=
  claim_C9_stream_events 20 emptyWorld ⟨"hi", "s", none, none⟩ ["片", "段"] "boom"
    (by decide) rfl

/-- Claim C10: when no character is resolvable (no id, no truthy name, or
lookup finds none) the system prompt is the fixed generic persona; when a
character resolves, the prompt is the deterministic ordered list of its
present non-empty attributes — name, then background, personality,
skills, current playstyle — followed by the fixed stay-in-character
instruction; and a `/chat` request carrying no character on a session
with no binding row uses the generic persona. -/
theorem claim_C10_system_prompt_policy :
    (∀ (chars : List CharacterInfo) (cname : Option String) (cid : Option Int),
      resolveChar chars cname cid = none →
        build_system_prompt chars cname cid = "You are a helpful assistant.")
    ∧ (∀ (chars : List CharacterInfo) (cname : Option String) (cid : Option Int)
        (c : CharacterInfo),
      resolveChar chars cname cid = some c →
        build_system_prompt chars cname cid = specPersonaRender c)
    ∧ (∀ (w : World) (sid : String),
      w.sessions.find? (fun s => s.id = sid) = none →
        chatSystemPrompt w sid none none = "You are a helpful assistant.") := by
  refine ⟨?_, ?_, ?_⟩
  · intro chars cname cid hres
    rw [build_system_prompt, hres]
  · intro chars cname cid c hres
    rw [build_system_prompt, hres]
    obtain ⟨i, nm, bg, pe, sk, st⟩ := c
    simp only [specPersonaRender, specPersonaRender.specAttrLine]
    cases bg <;> cases pe <;> cases sk <;> cases st <;>
      simp [strTruthy] <;> split_ifs <;> simp_all
  · intro w sid hfind
    rw [chatSystemPrompt, effectiveCharacterId]
    simp only [hfind]
    rfl

/-- Witness for claim C10: a lookup miss, a resolved sample character,
and an unbound fresh session. -/
theorem claim_C10_system_prompt_policy_witness :
    build_system_prompt [] (some "无此人") none = "You are a helpful assistant."
    ∧ build_system_prompt [sampleChar] none (some 7) = specPersonaRender sampleChar
    ∧ chatSystemPrompt emptyWorld "s" none none = "You are a helpful assistant." := by
  refine ⟨?_, ?_, ?_⟩
  · exact (claim_C10_system_prompt_policy).1 [] (some "无此人") none rfl
  · exact (claim_C10_system_prompt_policy).2.1 [sampleChar] none (some 7) sampleChar rfl
  · exact (claim_C10_system_prompt_policy).2.2 emptyWorld "s" rfl

/-- Claim C1 (the durable-store fallback): on a session with 101 durable
rows, an empty cache, and the handlers' `limit = 100`, the effective
history used for prompt assembly is the **oldest** 100 turns of the
store in ascending order (`ORDER BY created_at ASC LIMIT 100`), not the
last 100 turns as the claim — and `load_history_from_db`'s own
docstring, which promises the most recent entries — state. -/
theorem claim_C1_fallback_returns_oldest :
    effectiveHistory world101 "s" =
      ((db101.filter (fun r => r.session_id = "s")).map
        (fun r => (⟨r.role, r.message⟩ : Msg))).take 100
    ∧ effectiveHistory world101 "s" ≠
      takeLast 100 ((db101.filter (fun r => r.session_id = "s")).map
        (fun r => (⟨r.role, r.message⟩ : Msg))) := by
  refine ⟨by decide, by decide⟩
